import Mathlib

/-!
Verification development for the `PreprocessedDataset` component of
`trainer/dataset.py` (sd-lora-trainer).

The Python class is shallowly embedded: tensors are modelled as a shape
list plus a flat data list of integers with a gradient-tracking flag,
the stochastic latent distribution is modelled with a deterministic
draw substitute (one fixed tensor per distribution), Python strings
handled by caption preprocessing are modelled as lists of code points
(an ASCII model of str.lower), and fallible operations return
`Except PyErr`.  The injected collaborators (PIL image loading, the
image processor, the VAE encoder, torch resize and repeat operations)
are fields of an `Env` record, as they are external to this component.
-/

/-- Python strings, as lists of Unicode code points. -/
abbrev PyStr := List Nat

/-- ASCII model of Python `str.lower` on one code point. -/
def lowerCp (c : Nat) : Nat :=
  if 65 ≤ c ∧ c ≤ 90 then c + 32 else c

/-- Convert a Lean string literal to its code-point list (used for
concrete test inputs only). -/
def str2cp (s : String) : PyStr :=
  s.data.map Char.toNat

/-- Fuel-driven core of Python `str.replace` for a nonempty pattern:
scan left to right, replace each non-overlapping literal occurrence and
continue after the inserted replacement. The fuel is the length of the
scanned text, which bounds the recursion. -/
def replGo (pat rep : PyStr) : Nat → PyStr → PyStr
  | _, [] => []
  | 0, s => s
  | fuel + 1, c :: rest =>
    if pat ≠ [] ∧ (c :: rest).take pat.length = pat then
      rep ++ replGo pat rep fuel (rest.drop (pat.length - 1))
    else
      c :: replGo pat rep fuel rest

/-- Python `str.replace(pat, rep)`: for an empty pattern the
replacement is inserted before every character and at the end, exactly
as in CPython; otherwise non-overlapping left-to-right replacement. -/
def pyReplace (s pat rep : PyStr) : PyStr :=
  if pat = [] then rep ++ s.foldr (fun c acc => c :: (rep ++ acc)) []
  else replGo pat rep s.length s

/-- The caption preprocessing of `PreprocessedDataset.__init__`
(lines 47-52): lowercase the raw caption, then for each (key, value)
pair of the substitution map replace the lowercased key literally, and
finally fill a missing caption with the empty string. -/
def processCaption (subs : List (PyStr × PyStr)) (c : Option PyStr) : PyStr :=
  match c with
  | none => []
  | some s => subs.foldl (fun t kv => pyReplace t (kv.1.map lowerCp) kv.2) (s.map lowerCp)

/-- Fuel-driven case-insensitive replacement: like `replGo` but an
occurrence is any segment that equals the pattern up to letter case.
This is the comparison definition written from the words of the spec
(keys of the substitution map are matched case-insensitively). -/
def ciReplGo (pat rep : PyStr) : Nat → PyStr → PyStr
  | _, [] => []
  | 0, s => s
  | fuel + 1, c :: rest =>
    if pat ≠ [] ∧ ((c :: rest).take pat.length).map lowerCp = pat.map lowerCp then
      rep ++ ciReplGo pat rep fuel (rest.drop (pat.length - 1))
    else
      c :: ciReplGo pat rep fuel rest

/-- Spec-side replacement: replace every occurrence of `pat` in `s`
matched case-insensitively by `rep` (empty pattern behaves like
Python `str.replace` with an empty pattern). -/
def ciReplace (s pat rep : PyStr) : PyStr :=
  if pat = [] then rep ++ s.foldr (fun c acc => c :: (rep ++ acc)) []
  else ciReplGo pat rep s.length s

/-- A text is lowercase when every code point is fixed by `lowerCp`. -/
def allLower (s : PyStr) : Prop := ∀ x ∈ s, lowerCp x = x

/-- Torch tensor model: a shape, row-major flat integer data, and the
autograd requires-grad flag. Integer entries stand in for the float
entries of the real tensors; none of the verified properties depend on
floating-point rounding. -/
structure Tensor where
  shape : List Nat
  data : List Int
  requiresGrad : Bool
deriving DecidableEq, Inhabited

/-- torch `Tensor.squeeze()`: drop all singleton dimensions. The
row-major flat data is unchanged. -/
def Tensor.squeeze (t : Tensor) : Tensor :=
  { t with shape := t.shape.filter (fun d => d ≠ 1) }

/-- torch `Tensor.detach()`: same values, no gradient tracking. -/
def Tensor.detach (t : Tensor) : Tensor :=
  { t with requiresGrad := false }

/-- Multiplication of a tensor by a scalar (`sample * scaling_factor`). -/
def Tensor.scale (c : Int) (t : Tensor) : Tensor :=
  { t with data := t.data.map (fun x => c * x) }

/-- torch `ones_like`: same shape, all entries one, no grad. -/
def Tensor.onesLike (t : Tensor) : Tensor :=
  { shape := t.shape, data := List.replicate t.shape.prod 1, requiresGrad := false }

/-- The latent distribution returned by `vae_encoder.encode(...).latent_dist`,
with the stochastic `.sample()` replaced by a fixed deterministic draw
(the spec itself suggests verifying the read path against a fixed-seed
deterministic sample substitute). -/
structure LatentDist where
  draw : Tensor
deriving DecidableEq, Inhabited

/-- `.sample()` on a latent distribution: the deterministic draw. -/
def LatentDist.sample (d : LatentDist) : Tensor := d.draw

/-- A decoded image file: pixel dimensions plus an abstract content tag. -/
structure PILImage where
  width : Nat
  height : Nat
  tag : Nat
deriving DecidableEq, Inhabited

/-- The Python exceptions this component can raise. -/
inductive PyErr where
  | fileNotFound : String → PyErr
  | indexError : PyErr
  | keyError : PyErr
  | attributeError : String → PyErr
  | assertionError : PyErr
  | typeError : PyErr
  | valueError : PyErr
  | runtimeError : PyErr
deriving DecidableEq, Inhabited

/-- The injected external collaborators of the dataset: image decoding,
the image-processor transform, the VAE encoder with its configured
scaling factor, and the torch mask operations used by `_process`.
`mkBucketBatch` is the batch selection of the BucketManager.
Modelled from the spec: the BucketManager implementation lives in
`trainer/utils/aspect_ratio_bucketing.py`, which is not part of the
provided sources; per section 4.2 of the spec `get_batch()` returns an
index sequence together with one shared resolution and is deterministic
given the construction inputs, so it is modelled as a pure function of
the aspect-ratio table and the batch size. -/
structure Env where
  openImage : String → Option PILImage
  openMask : String → Option PILImage
  prepareImage : PILImage → Nat → Nat → Tensor
  prepareMask : PILImage → Nat → Nat → Tensor
  encode : Tensor → LatentDist
  scaling_factor : Int
  interpolateNearest : Tensor → Nat → Nat → Tensor
  repeatChannels : Tensor → Nat → Tensor
  mkBucketBatch : List (Nat × Nat) → Nat → List Nat × (Nat × Nat)

/-- One row of `captions.csv`. A missing caption cell is `none`
(pandas NaN); `mask_path` is the value of the optional mask column for
this row, `none` when the cell is empty. -/
structure ManifestRow where
  image_path : String
  caption : Option PyStr
  mask_path : Option String
deriving DecidableEq, Inhabited

/-- The parsed manifest: the rows in order, and whether the csv has a
`mask_path` column at all. -/
structure Manifest where
  rows : List ManifestRow
  hasMaskColumn : Bool
deriving DecidableEq, Inhabited

/-- `self.mask_path` as set in `__init__` lines 55-58: `none` when the
column is absent, otherwise the per-row column values. -/
def maskColOf (m : Manifest) : Option (List (Option String)) :=
  if m.hasMaskColumn then some (m.rows.map ManifestRow.mask_path) else none

/-- The BucketManager object held in `self.bucket_manager`.
Modelled from the spec (section 4.2): it owns the index-to-dimensions
table and the batch size, and serves batches; `nextBatch` is the
deterministic batch its `get_batch()` returns. -/
structure BucketManager where
  aspect_ratios : List (Nat × Nat)
  bsz : Nat
  nextBatch : List Nat × (Nat × Nat)
deriving DecidableEq, Inhabited

/-- The state of a constructed `PreprocessedDataset`. The on-disk
artifacts written during construction are carried in `diskLatents` and
`diskMasks`, indexed by row id exactly as the files
`{idx}_vae_latent.pt` and `{idx}_mask.pt` are. `tokenizer_2` models a
plain Python attribute: `none` means the attribute was never assigned
(reading it raises AttributeError), `some none` means it was assigned
the value `None`, `some (some ())` means a second tokenizer object was
assigned. -/
structure DatasetState where
  data_dir : String
  captions : List PyStr
  image_path : List String
  mask_path : Option (List (Option String))
  size : Nat × Nat
  vae_scaling_factor : Int
  do_cache : Bool
  vae_latents : List LatentDist
  masks : List Tensor
  diskLatents : List LatentDist
  diskMasks : List Tensor
  bucket_manager : Option BucketManager
  tokenizer_2 : Option (Option Unit)
deriving DecidableEq, Inhabited

/-- `os.path.join` for a relative second component. -/
def joinPath (a b : String) : String := a ++ "/" ++ b

/-- Name of the on-disk latent artifact for a row (`f"{idx}_vae_latent.pt"`). -/
def latentFileName (dir : String) (idx : Nat) : String :=
  joinPath dir (toString idx ++ "_vae_latent.pt")

/-- Name of the on-disk mask artifact for a row (`f"{idx}_mask.pt"`). -/
def maskFileName (dir : String) (idx : Nat) : String :=
  joinPath dir (toString idx ++ "_mask.pt")

/-- Result of `_process`: the latent distribution, the squeezed mask,
and the joined image path (its returned third component). -/
structure ProcessOut where
  latent : LatentDist
  mask : Tensor
  imagePath : String
deriving DecidableEq, Inhabited

/-- The mask construction inside `_process` (lines 160-175), given the
latent draw `dummy`: with no mask column, all ones shaped like `dummy`;
otherwise load the row's mask file, prepare it at the dataset size,
nearest-resample it to the draw's last two dimensions and repeat it
across the draw's channel dimension. A NaN cell in the mask column
makes `os.path.join` raise `typeError`. -/
def maskFor (env : Env) (data_dir : String) (size : Nat × Nat)
    (maskCol : Option (List (Option String))) (idx : Nat) (dummy : Tensor) :
    Except PyErr Tensor :=
  match maskCol with
  | none => .ok (Tensor.onesLike dummy)
  | some mps =>
    match mps.get? idx with
    | none => .error .keyError
    | some none => .error .typeError
    | some (some mp) =>
      match env.openMask (joinPath data_dir mp) with
      | none => .error (.fileNotFound (joinPath data_dir mp))
      | some mimg =>
        .ok (env.repeatChannels
          (env.interpolateNearest (env.prepareMask mimg size.1 size.2)
            (dummy.shape.getD (dummy.shape.length - 2) 0)
            (dummy.shape.getD (dummy.shape.length - 1) 0))
          (dummy.shape.getD 1 0))

/-- `PreprocessedDataset._process` (lines 141-179): open and convert
the row's image, transform it at the dataset size or at the
`bucketing_resolution` override, encode it to a latent distribution,
build the mask, check the 4-dimensionality assertion, and return the
latent distribution, the squeezed mask and the joined image path. A
missing file is a `fileNotFound` failure. -/
def processRow (env : Env) (data_dir : String) (size : Nat × Nat)
    (maskCol : Option (List (Option String))) (imagePaths : List String)
    (idx : Nat) (bucketing_resolution : Option (Nat × Nat)) :
    Except PyErr ProcessOut :=
  match imagePaths.get? idx with
  | none => .error .keyError
  | some ip =>
    match env.openImage (joinPath data_dir ip) with
    | none => .error (.fileNotFound (joinPath data_dir ip))
    | some img =>
      match maskFor env data_dir size maskCol idx
          ((env.encode (env.prepareImage img (bucketing_resolution.getD size).1
            (bucketing_resolution.getD size).2)).sample) with
      | .error e => .error e
      | .ok mask =>
        if mask.shape.length = 4 ∧
            ((env.encode (env.prepareImage img (bucketing_resolution.getD size).1
              (bucketing_resolution.getD size).2)).sample).shape.length = 4 then
          .ok ⟨env.encode (env.prepareImage img (bucketing_resolution.getD size).1
                (bucketing_resolution.getD size).2),
              mask.squeeze,
              joinPath data_dir ip⟩
        else .error .assertionError

/-- Sequential effectful map: apply `f` to each element in order and
stop at the first failure, exactly like the construction loops. -/
def exceptMapM {α β : Type} (f : α → Except PyErr β) : List α → Except PyErr (List β)
  | [] => .ok []
  | x :: xs =>
    match f x with
    | .error e => .error e
    | .ok b =>
      match exceptMapM f xs with
      | .error e => .error e
      | .ok bs => .ok (b :: bs)

/-- The eager encoding pass of `__init__` (lines 74-87): run `_process`
on every row in index order with no resolution override, collecting the
latent distribution and mask of each row; the first failing row aborts
the pass. -/
def eagerPass (env : Env) (data_dir : String) (size : Nat × Nat)
    (maskCol : Option (List (Option String))) (imagePaths : List String)
    (n : Nat) : Except PyErr (List (LatentDist × Tensor)) :=
  exceptMapM
    (fun idx =>
      match processRow env data_dir size maskCol imagePaths idx none with
      | .error e => .error e
      | .ok o => .ok (o.latent, o.mask))
    (List.range n)

/-- The aspect-ratio scan of `__init__` (lines 96-98): open every image
again to read its pixel dimensions. -/
def aspectPass (env : Env) (data_dir : String) (imagePaths : List String)
    (n : Nat) : Except PyErr (List (Nat × Nat)) :=
  exceptMapM
    (fun idx =>
      match imagePaths.get? idx with
      | none => .error .keyError
      | some ip =>
        match env.openImage (joinPath data_dir ip) with
        | none => .error (.fileNotFound (joinPath data_dir ip))
        | some img => .ok (img.width, img.height))
    (List.range n)

/-- Arguments of `PreprocessedDataset.__init__` other than the injected
collaborators. -/
structure InitArgs where
  data_dir : String
  size : Nat × Nat
  aspect_ratio_bucketing : Bool
  train_batch_size : Option Nat
  substitute_caption_map : List (PyStr × PyStr)
deriving Inhabited

/-- Decidable equality for `Except`, used to evaluate concrete runs. -/
instance exceptDecEq {e a : Type} [DecidableEq e] [DecidableEq a] :
    DecidableEq (Except e a)
  | .error x, .error y =>
    match decEq x y with
    | isTrue h => isTrue (by rw [h])
    | isFalse h => isFalse (by intro hh; injection hh; contradiction)
  | .error _, .ok _ => isFalse (fun hh => Except.noConfusion hh)
  | .ok _, .error _ => isFalse (fun hh => Except.noConfusion hh)
  | .ok x, .ok y =>
    match decEq x y with
    | isTrue h => isTrue (by rw [h])
    | isFalse h => isFalse (by intro hh; injection hh; contradiction)

/-- Outcome of running `__init__`: the constructed state or the raised
exception, together with whether the encoder release step
(`del self.vae_encoder; torch.cuda.empty_cache()`, lines 89-90) was
reached. -/
structure InitResult where
  result : Except PyErr DatasetState
  encoderReleased : Bool
deriving DecidableEq, Inhabited

/-- The dataset state as it stands right after the eager pass of
`__init__` succeeded with the per-row `pairs`: captions preprocessed,
paths and the mask column recorded, storage mode picked from the row
count, the pairs kept in memory (mask detached, line 77) or persisted
as the per-index disk artifacts, no bucket manager yet, and the
`tokenizer_2` attribute never assigned. -/
def initState (env : Env) (m : Manifest) (args : InitArgs)
    (pairs : List (LatentDist × Tensor)) : DatasetState where
  data_dir := args.data_dir
  captions := m.rows.map (fun r => processCaption args.substitute_caption_map r.caption)
  image_path := m.rows.map ManifestRow.image_path
  mask_path := maskColOf m
  size := args.size
  vae_scaling_factor := env.scaling_factor
  do_cache := decide (m.rows.length < 500)
  vae_latents := if m.rows.length < 500 then pairs.map Prod.fst else []
  masks := if m.rows.length < 500 then pairs.map (fun p => p.2.detach) else []
  diskLatents := if m.rows.length < 500 then [] else pairs.map Prod.fst
  diskMasks := if m.rows.length < 500 then [] else pairs.map Prod.snd
  bucket_manager := none
  tokenizer_2 := none

/-- `PreprocessedDataset.__init__` (lines 31-107): run the eager
encoding pass (a failing row aborts construction before the encoder
release step, which is straight-line code after the loop), release the
encoder, then when aspect-ratio bucketing was requested assert that a
batch size was supplied, re-open every image for its dimensions and
build the BucketManager. -/
def initDataset (env : Env) (m : Manifest) (args : InitArgs) : InitResult :=
  match eagerPass env args.data_dir args.size (maskColOf m)
      (m.rows.map ManifestRow.image_path) m.rows.length with
  | .error e => ⟨.error e, false⟩
  | .ok pairs =>
    if args.aspect_ratio_bucketing then
      match args.train_batch_size with
      | none => ⟨.error .assertionError, true⟩
      | some bsz =>
        match aspectPass env args.data_dir (m.rows.map ManifestRow.image_path)
            m.rows.length with
        | .error e => ⟨.error e, true⟩
        | .ok ars =>
          ⟨.ok { initState env m args pairs with
                  bucket_manager := some ⟨ars, bsz, env.mkBucketBatch ars bsz⟩ }, true⟩
    else ⟨.ok (initState env m args pairs), true⟩

/-- `PreprocessedDataset.__getitem__` (lines 181-193). In memory mode:
index the cached latent list, draw and scale, then build the returned
triple reading the caption and the cached mask; out-of-range list
indexing is `indexError` and out-of-range pandas label lookup is
`keyError`. In disk mode: load the two per-index artifacts (a missing
file is `fileNotFound`), draw and scale, read the caption. The body
never uses its `bucketing_resolution` parameter, mirroring the source. -/
def getitem (ds : DatasetState) (idx : Nat)
    (bucketing_resolution : Option (Nat × Nat)) :
    Except PyErr (PyStr × Tensor × Tensor) :=
  if ds.do_cache then
    match ds.vae_latents.get? idx with
    | none => .error .indexError
    | some dist =>
      match ds.captions.get? idx with
      | none => .error .keyError
      | some cap =>
        match ds.masks.get? idx with
        | none => .error .indexError
        | some m =>
          .ok (cap, (Tensor.scale ds.vae_scaling_factor dist.sample).squeeze.detach,
            m.detach)
  else
    match ds.diskLatents.get? idx with
    | none => .error (.fileNotFound (latentFileName ds.data_dir idx))
    | some dist =>
      match ds.diskMasks.get? idx with
      | none => .error (.fileNotFound (maskFileName ds.data_dir idx))
      | some m =>
        match ds.captions.get? idx with
        | none => .error .keyError
        | some cap =>
          .ok (cap, (Tensor.scale ds.vae_scaling_factor dist.sample).squeeze.detach,
            m.detach)

/-- The cached latent distribution a read at `idx` draws from: the
in-memory list in cache mode, the on-disk artifact otherwise. -/
def cachedDist (ds : DatasetState) (idx : Nat) : Option LatentDist :=
  if ds.do_cache then ds.vae_latents.get? idx else ds.diskLatents.get? idx

/-- Attribute name read at lines 115, 126 and 133. -/
def tok2AttrName : String := "tokenizer_2"

/-- Attribute missing on `str` operands at lines 119 and 121. -/
def unsqueezeName : String := "unsqueeze"

/-- `PreprocessedDataset.get_aspect_ratio_bucketed_batch`
(lines 109-136). The guard asserts a bucket manager exists; the batch
indices and resolution come from `get_batch()`. Every path through the
per-index loop raises before completing one iteration — reading the
never-assigned `tokenizer_2` attribute raises AttributeError; were that
attribute patched in as `None`, `t1` would be the raw caption string
whose `.unsqueeze(0)` raises AttributeError; with a second tokenizer
present, unpacking the caption string into `(t1, t2)` raises ValueError
unless the caption has exactly two characters, in which case
`t2.unsqueeze(0)` on a one-character string raises AttributeError — and
with an empty batch the loop is skipped and `torch.cat` on the empty
`tok1` list raises RuntimeError, so the embedding maps each state to
the exception of its first failing step. -/
def get_aspect_ratio_bucketed_batch (ds : DatasetState) :
    Except PyErr ((Tensor × Option Tensor) × Tensor × Tensor) :=
  match ds.bucket_manager with
  | none => .error .assertionError
  | some bm =>
    match bm.nextBatch.1 with
    | [] => .error .runtimeError
    | idx :: _ =>
      match ds.tokenizer_2 with
      | none => .error (.attributeError tok2AttrName)
      | some tok2 =>
        match getitem ds idx (some bm.nextBatch.2) with
        | .error e => .error e
        | .ok g =>
          match tok2 with
          | none => .error (.attributeError unsqueezeName)
          | some _ =>
            if g.1.length = 2 then .error (.attributeError unsqueezeName)
            else .error .valueError

/-- `PreprocessedDataset.__len__`: the manifest row count. -/
def datasetLen (ds : DatasetState) : Nat := ds.captions.length

/-- True exactly on a raised AttributeError. -/
def isAttrErr {α : Type} : Except PyErr α → Bool
  | .error (.attributeError _) => true
  | _ => false

/-- True exactly on a normally returned value. -/
def exceptOk {α : Type} : Except PyErr α → Bool
  | .ok _ => true
  | .error _ => false

/-- A 640 by 480 test image. -/
def img1 : PILImage := ⟨640, 480, 0⟩

/-- Test environment: every path decodes to `img1`, the transform tags
the produced tensor with the requested resolution (so latents encode
which resolution the transform ran at), the encoder draw is that
tensor, and the scaling factor is 2. -/
def env1 : Env where
  openImage := fun _ => some img1
  openMask := fun _ => none
  prepareImage := fun _ w h => ⟨[1, 1, 2, 2], [(w : Int), (h : Int), 0, 0], false⟩
  prepareMask := fun _ _ _ => default
  encode := fun t => ⟨t⟩
  scaling_factor := 2
  interpolateNearest := fun t _ _ => t
  repeatChannels := fun t _ => t
  mkBucketBatch := fun _ _ => ([0], (256, 256))

/-- A manifest row with no mask cell. -/
def row1 : ManifestRow := ⟨"img.png", some (str2cp ("hello")), none⟩

/-- One-row manifest without a mask column. -/
def m1 : Manifest := ⟨[row1], false⟩

/-- Construction arguments: data root `d`, default size 512 by 512, no
bucketing, no batch size, empty substitution map. -/
def args1 : InitArgs := ⟨"d", (512, 512), false, none, []⟩

/-- The dataset constructed from `m1` (in-memory mode, one row). -/
def ds1 : DatasetState :=
  match (initDataset env1 m1 args1).result with
  | .ok d => d
  | .error _ => default

/-- The triple served by `getitem ds1 0` with no resolution override. -/
def read1 : PyStr × Tensor × Tensor :=
  match getitem ds1 0 none with
  | .ok g => g
  | .error _ => default

/-- The triple served by `getitem ds1 0` with override 256 by 256. -/
def readOv1 : PyStr × Tensor × Tensor :=
  match getitem ds1 0 (some (256, 256)) with
  | .ok g => g
  | .error _ => default

/-- The latent a read would have to return if the transform had run at
the 256 by 256 override: encode the transformed image at 256, draw,
scale, squeeze, detach. -/
def latentR256 : Tensor :=
  (Tensor.scale env1.scaling_factor
    ((env1.encode (env1.prepareImage img1 256 256)).sample)).squeeze.detach

/-- The latent derived from the construction-time encoding at the
dataset default 512 by 512. -/
def latentR512 : Tensor :=
  (Tensor.scale env1.scaling_factor
    ((env1.encode (env1.prepareImage img1 512 512)).sample)).squeeze.detach

/-- Two-row manifest whose mask column exists but whose first row has
an empty mask cell (pandas NaN). -/
def m2 : Manifest :=
  ⟨[⟨"a.png", some (str2cp ("x")), none⟩,
    ⟨"b.png", some (str2cp ("y")), some "m.png"⟩], true⟩

/-- Construction arguments with aspect-ratio bucketing enabled and
batch size 1. -/
def args3 : InitArgs := ⟨"d", (512, 512), true, some 1, []⟩

/-- The dataset constructed from `m1` with bucketing enabled. -/
def ds3 : DatasetState :=
  match (initDataset env1 m1 args3).result with
  | .ok d => d
  | .error _ => default

/-- The bucket manager held by `ds3`. -/
def bm3 : BucketManager := ⟨[(640, 480)], 1, ([0], (256, 256))⟩

/-- `ds3` after the caller assigns `dataset.tokenizer_2 = None`, the
only way the attribute ever comes to exist. -/
def ds8b : DatasetState := { ds3 with tokenizer_2 := some none }

/-- The triple `__getitem__` serves inside the batch loop of `ds8b`. -/
def read8 : PyStr × Tensor × Tensor :=
  match getitem ds8b 0 (some (256, 256)) with
  | .ok g => g
  | .error _ => default

/-- Manifest with 499 identical rows: one below the storage boundary. -/
def m499 : Manifest := ⟨List.replicate 499 row1, false⟩

/-- Manifest with 500 identical rows: at the storage boundary. -/
def m500 : Manifest := ⟨List.replicate 500 row1, false⟩

/-- Dataset built from 499 rows. -/
def ds499 : DatasetState :=
  match (initDataset env1 m499 args1).result with
  | .ok d => d
  | .error _ => default

/-- Dataset built from 500 rows. -/
def ds500 : DatasetState :=
  match (initDataset env1 m500 args1).result with
  | .ok d => d
  | .error _ => default

/-- Environment in which only `d/a.png` decodes; every other image
read fails, making the eager pass die partway through. -/
def env10 : Env :=
  { env1 with openImage := fun s => if s = joinPath ("d") ("a.png") then some img1 else none }

/-- Two-row manifest whose second image is unreadable under `env10`. -/
def m10 : Manifest :=
  ⟨[⟨"a.png", some (str2cp ("x")), none⟩,
    ⟨"b.png", some (str2cp ("y")), none⟩], false⟩

theorem lowerCp_idem (c : Nat) : lowerCp (lowerCp c) = lowerCp c := by
  unfold lowerCp
  split
  · next h =>
    rw [if_neg (by omega : ¬ (65 ≤ c + 32 ∧ c + 32 ≤ 90))]
  · rfl

theorem allLower_map_lowerCp (s : PyStr) : allLower (s.map lowerCp) := by
  intro x hx
  rcases List.mem_map.mp hx with ⟨y, _, rfl⟩
  exact lowerCp_idem y

theorem allLower_sub {s : PyStr} (h : allLower s) (t : PyStr)
    (hsub : ∀ x ∈ t, x ∈ s) : allLower t := by
  intro x hx
  exact h x (hsub x hx)

theorem map_lowerCp_of_allLower {s : PyStr} (h : allLower s) :
    s.map lowerCp = s := by
  induction s with
  | nil => rfl
  | cons c rest ih =>
    simp only [List.map_cons]
    have hc : lowerCp c = c := h c (List.mem_cons_self c rest)
    rw [hc, ih (fun x hx => h x (List.mem_cons_of_mem c hx))]

/-- On lowercase text, case-insensitive replacement of `pat` agrees
with literal replacement of the lowercased pattern, for any fuel. -/
theorem ciReplGo_eq_replGo (pat rep : PyStr) :
    ∀ (fuel : Nat) (s : PyStr), allLower s →
      ciReplGo pat rep fuel s = replGo (pat.map lowerCp) rep fuel s := by
  intro fuel
  induction fuel with
  | zero =>
    intro s _
    cases s <;> rfl
  | succ n ih =>
    intro s hs
    cases s with
    | nil => rfl
    | cons c rest =>
      have hlow : ((c :: rest).take pat.length).map lowerCp
          = (c :: rest).take pat.length :=
        map_lowerCp_of_allLower
          (allLower_sub hs _ (fun x hx => List.take_subset _ _ hx))
      have hrest : allLower rest :=
        allLower_sub hs _ (fun x hx => List.mem_cons_of_mem c hx)
      simp only [ciReplGo, replGo]
      by_cases hc : pat ≠ [] ∧ ((c :: rest).take pat.length).map lowerCp = pat.map lowerCp
      · have hc2 : pat.map lowerCp ≠ [] ∧
            (c :: rest).take (pat.map lowerCp).length = pat.map lowerCp := by
          refine ⟨by simpa using hc.1, ?_⟩
          rw [List.length_map, ← hlow]
          exact hc.2
        rw [if_pos hc, if_pos hc2, List.length_map]
        congr 1
        exact ih _ (allLower_sub hrest _ (fun x hx => List.drop_subset _ _ hx))
      · have hc2 : ¬ (pat.map lowerCp ≠ [] ∧
            (c :: rest).take (pat.map lowerCp).length = pat.map lowerCp) := by
          intro h2
          apply hc
          refine ⟨by simpa using h2.1, ?_⟩
          rw [hlow]
          rw [List.length_map] at h2
          exact h2.2
        rw [if_neg hc, if_neg hc2]
        congr 1
        exact ih rest hrest

theorem ciReplace_eq_pyReplace_of_allLower (s pat rep : PyStr) (hs : allLower s) :
    ciReplace s pat rep = pyReplace s (pat.map lowerCp) rep := by
  unfold ciReplace pyReplace
  by_cases hp : pat = []
  · subst hp
    simp
  · have hp2 : ¬ pat.map lowerCp = [] := by simpa using hp
    rw [if_neg hp, if_neg hp2]
    exact ciReplGo_eq_replGo pat rep s.length s hs

theorem map_lowerCp_map_lowerCp (l : PyStr) :
    (l.map lowerCp).map lowerCp = l.map lowerCp :=
  map_lowerCp_of_allLower (allLower_map_lowerCp l)

theorem processCaption_foldl_key (subs : List (PyStr × PyStr)) :
    ∀ t : PyStr,
      List.foldl (fun t kv => pyReplace t (kv.1.map lowerCp) kv.2) t
          (subs.map (fun kv => (kv.1.map lowerCp, kv.2)))
        = List.foldl (fun t kv => pyReplace t (kv.1.map lowerCp) kv.2) t subs := by
  induction subs with
  | nil =>
    intro t
    rfl
  | cons kv rest ih =>
    intro t
    simp only [List.map_cons, List.foldl_cons]
    rw [map_lowerCp_map_lowerCp]
    exact ih _

theorem exceptMapM_ok {a b : Type} (f : a → Except PyErr b) :
    ∀ (l : List a) (r : List b), exceptMapM f l = .ok r →
      r.length = l.length ∧
      ∀ (i : Nat) (x : a), l.get? i = some x →
        ∃ y, r.get? i = some y ∧ f x = .ok y := by
  intro l
  induction l with
  | nil =>
    intro r h
    simp only [exceptMapM] at h
    injection h with h
    subst h
    refine ⟨rfl, ?_⟩
    intro i x hx
    simp at hx
  | cons z zs ih =>
    intro r h
    simp only [exceptMapM] at h
    cases hfz : f z with
    | error e =>
      rw [hfz] at h
      exact absurd h (by simp)
    | ok y0 =>
      rw [hfz] at h
      cases hrec : exceptMapM f zs with
      | error e =>
        rw [hrec] at h
        exact absurd h (by simp)
      | ok ys =>
        rw [hrec] at h
        injection h with h
        subst h
        obtain ⟨hlen, hget⟩ := ih ys hrec
        refine ⟨by simp [hlen], ?_⟩
        intro i x hx
        cases i with
        | zero =>
          simp only [List.get?_cons_zero] at hx
          injection hx with hx
          subst hx
          exact ⟨y0, by simp, hfz⟩
        | succ j =>
          simp only [List.get?_cons_succ] at hx
          obtain ⟨y, h1, h2⟩ := hget j x hx
          exact ⟨y, by simpa using h1, h2⟩

theorem eagerPass_get (env : Env) (dir : String) (size : Nat × Nat)
    (maskCol : Option (List (Option String))) (paths : List String) (n : Nat)
    (pairs : List (LatentDist × Tensor)) (idx : Nat) (p : LatentDist × Tensor)
    (heg : eagerPass env dir size maskCol paths n = .ok pairs)
    (hget : pairs.get? idx = some p) :
    ∃ o, processRow env dir size maskCol paths idx none = .ok o ∧
      p = (o.latent, o.mask) := by
  obtain ⟨hlen, hspec⟩ := exceptMapM_ok _ _ _ heg
  have hidx : idx < n := by
    by_contra hge
    have : pairs.get? idx = none := by
      apply List.get?_eq_none.mpr
      rw [hlen, List.length_range]
      omega
    rw [this] at hget
    cases hget
  obtain ⟨y, hy, hf⟩ := hspec idx idx (List.get?_range hidx)
  rw [hget] at hy
  injection hy with hy
  subst hy
  cases hpr : processRow env dir size maskCol paths idx none with
  | error e =>
    rw [hpr] at hf
    exact absurd hf (by simp)
  | ok o =>
    rw [hpr] at hf
    injection hf with hf
    exact ⟨o, rfl, hf.symm⟩

theorem eagerPass_ok_length (env : Env) (dir : String) (size : Nat × Nat)
    (maskCol : Option (List (Option String))) (paths : List String) (n : Nat)
    (pairs : List (LatentDist × Tensor))
    (heg : eagerPass env dir size maskCol paths n = .ok pairs) :
    pairs.length = n := by
  obtain ⟨hlen, _⟩ := exceptMapM_ok _ _ _ heg
  rw [hlen, List.length_range]

theorem getitem_ok_spec (ds : DatasetState) (idx : Nat) (r : Option (Nat × Nat))
    (cap : PyStr) (v mk : Tensor)
    (h : getitem ds idx r = .ok (cap, v, mk)) :
    ∃ dist m0,
      cachedDist ds idx = some dist ∧
      (if ds.do_cache then ds.masks.get? idx else ds.diskMasks.get? idx) = some m0 ∧
      ds.captions.get? idx = some cap ∧
      v = (Tensor.scale ds.vae_scaling_factor dist.sample).squeeze.detach ∧
      mk = m0.detach := by
  unfold getitem at h
  unfold cachedDist
  split at h
  · next hdc =>
    rw [if_pos hdc, if_pos hdc]
    cases hv : ds.vae_latents.get? idx with
    | none =>
      rw [hv] at h
      exact absurd h (by simp)
    | some dist =>
      rw [hv] at h
      cases hcap : ds.captions.get? idx with
      | none =>
        rw [hcap] at h
        exact absurd h (by simp)
      | some cap0 =>
        rw [hcap] at h
        cases hm : ds.masks.get? idx with
        | none =>
          rw [hm] at h
          exact absurd h (by simp)
        | some m0 =>
          rw [hm] at h
          simp only [Except.ok.injEq, Prod.mk.injEq] at h
          obtain ⟨h1, h2, h3⟩ := h
          exact ⟨dist, m0, rfl, rfl, by rw [h1], h2.symm, h3.symm⟩
  · next hdc =>
    rw [if_neg hdc, if_neg hdc]
    cases hv : ds.diskLatents.get? idx with
    | none =>
      rw [hv] at h
      exact absurd h (by simp)
    | some dist =>
      rw [hv] at h
      cases hm : ds.diskMasks.get? idx with
      | none =>
        rw [hm] at h
        exact absurd h (by simp)
      | some m0 =>
        rw [hm] at h
        cases hcap : ds.captions.get? idx with
        | none =>
          rw [hcap] at h
          exact absurd h (by simp)
        | some cap0 =>
          rw [hcap] at h
          simp only [Except.ok.injEq, Prod.mk.injEq] at h
          obtain ⟨h1, h2, h3⟩ := h
          exact ⟨dist, m0, rfl, rfl, by rw [h1], h2.symm, h3.symm⟩

theorem processRow_mask_none (env : Env) (dir : String) (size : Nat × Nat)
    (paths : List String) (idx : Nat) (o : ProcessOut)
    (h : processRow env dir size none paths idx none = .ok o) :
    o.mask = (Tensor.onesLike o.latent.sample).squeeze := by
  unfold processRow at h
  split at h
  · exact absurd h (by simp)
  · split at h
    · exact absurd h (by simp)
    · simp only [maskFor] at h
      split at h
      · next hlen =>
        simp only [Except.ok.injEq] at h
        subst h
        rfl
      · exact absurd h (by simp)

theorem initDataset_ok_struct (env : Env) (m : Manifest) (args : InitArgs)
    (ds : DatasetState) (h : (initDataset env m args).result = .ok ds) :
    ∃ pairs, eagerPass env args.data_dir args.size (maskColOf m)
        (m.rows.map ManifestRow.image_path) m.rows.length = .ok pairs ∧
      ((args.aspect_ratio_bucketing = false ∧ ds = initState env m args pairs) ∨
        (args.aspect_ratio_bucketing = true ∧ ∃ bm,
          ds = { initState env m args pairs with bucket_manager := some bm })) := by
  unfold initDataset at h
  split at h
  · exact absurd h (by simp)
  · next pairs heq =>
    refine ⟨pairs, heq, ?_⟩
    split at h
    · next hb =>
      split at h
      · exact absurd h (by simp)
      · split at h
        · exact absurd h (by simp)
        · simp only [Except.ok.injEq] at h
          exact .inr ⟨hb, ⟨_, h.symm⟩⟩
    · next hb =>
      simp only [Except.ok.injEq] at h
      exact .inl ⟨by simpa using hb, h.symm⟩

theorem initDataset_ok_tokenizer_2 (env : Env) (m : Manifest) (args : InitArgs)
    (ds : DatasetState) (h : (initDataset env m args).result = .ok ds) :
    ds.tokenizer_2 = none := by
  obtain ⟨pairs, _, hcase⟩ := initDataset_ok_struct env m args ds h
  rcases hcase with ⟨_, rfl⟩ | ⟨_, _, rfl⟩ <;> rfl

theorem initDataset_ok_fields (env : Env) (m : Manifest) (args : InitArgs)
    (ds : DatasetState) (h : (initDataset env m args).result = .ok ds) :
    ∃ pairs, eagerPass env args.data_dir args.size (maskColOf m)
        (m.rows.map ManifestRow.image_path) m.rows.length = .ok pairs ∧
      ds.data_dir = args.data_dir ∧
      ds.do_cache = decide (m.rows.length < 500) ∧
      ds.vae_latents = (if m.rows.length < 500 then pairs.map Prod.fst else []) ∧
      ds.masks = (if m.rows.length < 500 then pairs.map (fun p => p.2.detach) else []) ∧
      ds.diskLatents = (if m.rows.length < 500 then [] else pairs.map Prod.fst) ∧
      ds.diskMasks = (if m.rows.length < 500 then [] else pairs.map Prod.snd) := by
  obtain ⟨pairs, heg, hcase⟩ := initDataset_ok_struct env m args ds h
  rcases hcase with ⟨_, rfl⟩ | ⟨_, _, rfl⟩ <;>
    exact ⟨pairs, heg, rfl, rfl, rfl, rfl, rfl, rfl⟩

/-- Claim C1, amended: `__getitem__` ignores its `bucketing_resolution`
argument entirely — a read with any resolution override returns exactly
what the read without an override returns, namely the latent and mask
cached by the construction-time encoding at the dataset default size.
Only `_process` (run during construction, always without an override)
honours `bucketing_resolution`. -/
theorem c1_override_ignored (ds : DatasetState) (idx : Nat) (r : Nat × Nat) :
    getitem ds idx (some r) = getitem ds idx none := rfl

/-- Claim C1, counterexample: on the one-row dataset `ds1` a read with
override 256 by 256 succeeds but serves the latent of the image encoded
at the default 512 by 512, not the latent an encoding at 256 by 256
would give, refuting the claim that the transform step runs at the
override resolution. -/
theorem c1_counterexample :
    (initDataset env1 m1 args1).result = Except.ok ds1 ∧
    getitem ds1 0 (some (256, 256)) = Except.ok readOv1 ∧
    readOv1.2.1 ≠ latentR256 ∧
    readOv1.2.1 = latentR512 := by
  refine ⟨rfl, rfl, ?_, rfl⟩
  decide

/-- Claim C2, amended: when the manifest has no `mask_path` column at
all, every successful read returns a mask with exactly the returned
latent's shape (channel and spatial dimensions) and with every entry
equal to one, in both storage modes. (A row whose mask cell is merely
empty while the column exists does not get a ones mask: construction
aborts on it, see the counterexample.) -/
theorem c2_no_mask_column_ones (env : Env) (m : Manifest) (args : InitArgs)
    (ds : DatasetState) (idx : Nat) (cap : PyStr) (v mk : Tensor)
    (hmc : m.hasMaskColumn = false)
    (h : (initDataset env m args).result = .ok ds)
    (hg : getitem ds idx none = .ok (cap, v, mk)) :
    mk.shape = v.shape ∧ mk.data = List.replicate mk.data.length 1 := by
  obtain ⟨pairs, heg, hdd, hdc, hvl, hms, hdl, hdm⟩ := initDataset_ok_fields env m args ds h
  have hmcol : maskColOf m = none := by simp [maskColOf, hmc]
  rw [hmcol] at heg
  obtain ⟨dist, m0, hdist, hm0, hcap, hv, hmk⟩ := getitem_ok_spec ds idx none cap v mk hg
  by_cases hlt : m.rows.length < 500
  · have hdct : ds.do_cache = true := by rw [hdc]; simp [hlt]
    simp only [cachedDist, hdct, if_true] at hdist
    rw [hvl, if_pos hlt] at hdist
    simp only [List.get?_map] at hdist
    cases hp : pairs.get? idx with
    | none => rw [hp] at hdist; cases hdist
    | some p =>
      rw [hp] at hdist
      simp only [Option.map_some'] at hdist
      injection hdist with hdist
      simp only [hdct, if_true] at hm0
      rw [hms, if_pos hlt] at hm0
      simp only [List.get?_map, hp, Option.map_some'] at hm0
      injection hm0 with hm0
      obtain ⟨o, hpr, hpe⟩ := eagerPass_get env args.data_dir args.size none
        (m.rows.map ManifestRow.image_path) m.rows.length pairs idx p heg hp
      have hmask := processRow_mask_none env args.data_dir args.size
        (m.rows.map ManifestRow.image_path) idx o hpr
      have hp1 : p.1 = o.latent := by rw [hpe]
      have hp2 : p.2 = o.mask := by rw [hpe]
      subst hv hmk
      rw [← hm0, hp2, hmask, ← hdist, hp1]
      constructor
      · simp [Tensor.onesLike, Tensor.squeeze, Tensor.detach, Tensor.scale]
      · simp [Tensor.onesLike, Tensor.squeeze, Tensor.detach]
  · have hdcf : ds.do_cache = false := by rw [hdc]; simp [hlt]
    simp only [cachedDist, hdcf, Bool.false_eq_true, if_false] at hdist
    rw [hdl, if_neg hlt] at hdist
    simp only [List.get?_map] at hdist
    cases hp : pairs.get? idx with
    | none => rw [hp] at hdist; cases hdist
    | some p =>
      rw [hp] at hdist
      simp only [Option.map_some'] at hdist
      injection hdist with hdist
      simp only [hdcf, Bool.false_eq_true, if_false] at hm0
      rw [hdm, if_neg hlt] at hm0
      simp only [List.get?_map, hp, Option.map_some'] at hm0
      injection hm0 with hm0
      obtain ⟨o, hpr, hpe⟩ := eagerPass_get env args.data_dir args.size none
        (m.rows.map ManifestRow.image_path) m.rows.length pairs idx p heg hp
      have hmask := processRow_mask_none env args.data_dir args.size
        (m.rows.map ManifestRow.image_path) idx o hpr
      have hp1 : p.1 = o.latent := by rw [hpe]
      have hp2 : p.2 = o.mask := by rw [hpe]
      subst hv hmk
      rw [← hm0, hp2, hmask, ← hdist, hp1]
      constructor
      · simp [Tensor.onesLike, Tensor.squeeze, Tensor.detach, Tensor.scale]
      · simp [Tensor.onesLike, Tensor.squeeze, Tensor.detach]

/-- Claim C2, witness: on the one-row maskless dataset the served mask
has the served latent's shape and is all ones. -/
theorem c2_witness :
    read1.2.2.shape = read1.2.1.shape ∧
    read1.2.2.data = List.replicate read1.2.2.data.length 1 :=
  c2_no_mask_column_ones env1 m1 args1 ds1 0 read1.1 read1.2.1 read1.2.2 rfl rfl rfl

/-- Claim C2, counterexample: a manifest whose mask column exists but
whose first row has an empty mask cell does not yield an all-ones mask
for that row — construction itself aborts with the TypeError that
`os.path.join` raises on the NaN cell, so no read ever returns. -/
theorem c2_counterexample :
    initDataset env1 m2 args1 = InitResult.mk (Except.error PyErr.typeError) false := rfl

/-- Claim C3, amended: no construction path makes
`get_aspect_ratio_bucketed_batch` return a batch triple. On a
constructed dataset with a bucket manager whose batch is nonempty the
call fails with the AttributeError on the never-assigned `tokenizer_2`
before any item is read; with bucketing disabled it fails the
bucket-manager assertion instead (an AssertionError, not an
AttributeError), and an empty batch dies in `torch.cat`. -/
theorem c3_batch_always_raises (env : Env) (m : Manifest) (args : InitArgs)
    (ds : DatasetState) (h : (initDataset env m args).result = .ok ds) :
    (∀ b, get_aspect_ratio_bucketed_batch ds ≠ .ok b) ∧
    (∀ bm i rest, ds.bucket_manager = some bm → bm.nextBatch.1 = i :: rest →
      get_aspect_ratio_bucketed_batch ds = .error (.attributeError tok2AttrName)) := by
  have htok : ds.tokenizer_2 = none := initDataset_ok_tokenizer_2 env m args ds h
  constructor
  · intro b hb
    unfold get_aspect_ratio_bucketed_batch at hb
    split at hb
    · exact absurd hb (by simp)
    · split at hb
      · exact absurd hb (by simp)
      · rw [htok] at hb
        exact absurd hb (by simp)
  · intro bm i rest hbm hbatch
    simp only [get_aspect_ratio_bucketed_batch, hbm, hbatch, htok]

/-- Claim C3, counterexample: on a dataset constructed without
bucketing the call fails with the precondition AssertionError, not with
an attribute error, refuting the claim that every constructed dataset
fails the call with an attribute error. -/
theorem c3_counterexample :
    (initDataset env1 m1 args1).result = Except.ok ds1 ∧
    get_aspect_ratio_bucketed_batch ds1 = Except.error PyErr.assertionError ∧
    isAttrErr (get_aspect_ratio_bucketed_batch ds1) = false :=
  ⟨rfl, rfl, rfl⟩

/-- Claim C3, witness: on the bucketing-enabled dataset `ds3` the call
raises the `tokenizer_2` AttributeError. -/
theorem c3_witness :
    get_aspect_ratio_bucketed_batch ds3 = Except.error (PyErr.attributeError tok2AttrName) :=
  (c3_batch_always_raises env1 m1 args3 ds3 rfl).2 bm3 0 [] rfl rfl

set_option maxRecDepth 100000 in
/-- Claim C4: the storage mode is a pure function of the manifest row
count fixed at construction — in-memory exactly when the row count is
below 500 — and at the boundary a 499-row manifest selects in-memory
mode while a 500-row manifest selects on-disk mode. (Reads are modelled
as pure functions of the state, which the source never mutates after
`__init__`.) -/
theorem c4_storage_mode :
    (∀ (env : Env) (m : Manifest) (args : InitArgs) (ds : DatasetState),
      (initDataset env m args).result = .ok ds →
        ds.do_cache = decide (m.rows.length < 500)) ∧
    (initDataset env1 m499 args1).result = Except.ok ds499 ∧ ds499.do_cache = true ∧
    (initDataset env1 m500 args1).result = Except.ok ds500 ∧ ds500.do_cache = false := by
  refine ⟨?_, rfl, rfl, rfl, rfl⟩
  intro env m args ds h
  obtain ⟨pairs, _, hcase⟩ := initDataset_ok_struct env m args ds h
  rcases hcase with ⟨_, rfl⟩ | ⟨_, _, rfl⟩ <;> rfl

set_option maxRecDepth 100000 in
/-- Claim C4, witness: the 499-row dataset instantiates the general
mode equation. -/
theorem c4_witness : ds499.do_cache = decide (m499.rows.length < 500) :=
  c4_storage_mode.1 env1 m499 args1 ds499 rfl

/-- Claim C5: every successful read returns as its latent exactly the
draw from that row's cached latent distribution multiplied by the
scaling factor, with singleton dimensions squeezed out and gradient
tracking detached — in memory mode and on-disk mode alike. -/
theorem c5_latent_is_scaled_draw (ds : DatasetState) (idx : Nat)
    (r : Option (Nat × Nat)) (cap : PyStr) (v mk : Tensor)
    (h : getitem ds idx r = .ok (cap, v, mk)) :
    (cachedDist ds idx).map
      (fun d => (Tensor.scale ds.vae_scaling_factor d.sample).squeeze.detach)
      = some v := by
  obtain ⟨dist, m0, hdist, _, _, hv, _⟩ := getitem_ok_spec ds idx r cap v mk h
  rw [hdist]
  simp [hv]

/-- Claim C5, witness: the one-row in-memory dataset instantiates the
scaled-draw equation. -/
theorem c5_witness :
    getitem ds1 0 none = Except.ok read1 ∧
    (cachedDist ds1 0).map
      (fun d => (Tensor.scale ds1.vae_scaling_factor d.sample).squeeze.detach)
      = some read1.2.1 :=
  ⟨rfl, c5_latent_is_scaled_draw ds1 0 none read1.1 read1.2.1 read1.2.2 rfl⟩

/-- Claim C6: caption preprocessing lowercases the raw caption and
replaces every substitution key matched case-insensitively by its
value: on the concrete example, map cat to dog over `A CAT sat` gives
`a dog sat`; lowercasing the keys of any map never changes the result
(key matching ignores the key case); and for a single-entry map the
stored caption is exactly the case-insensitive replacement of the key
in the lowercased caption. -/
theorem c6_caption_substitution :
    processCaption [(str2cp ("cat"), str2cp ("dog"))] (some (str2cp ("A CAT sat")))
      = str2cp ("a dog sat") ∧
    (∀ (subs : List (PyStr × PyStr)) (c : Option PyStr),
      processCaption (subs.map (fun kv => (kv.1.map lowerCp, kv.2))) c
        = processCaption subs c) ∧
    (∀ (k v c : PyStr),
      processCaption [(k, v)] (some c) = ciReplace (c.map lowerCp) k v) := by
  refine ⟨by decide, ?_, ?_⟩
  · intro subs c
    cases c with
    | none => rfl
    | some s =>
      simp only [processCaption]
      exact processCaption_foldl_key subs (s.map lowerCp)
  · intro k v c
    have h1 : processCaption [(k, v)] (some c)
        = pyReplace (c.map lowerCp) (k.map lowerCp) v := rfl
    rw [h1, ← ciReplace_eq_pyReplace_of_allLower (c.map lowerCp) k v (allLower_map_lowerCp c)]

/-- Claim C7, amended: a read at index N (the row count) always fails
with a reported error and never wraps around: in memory mode the list
indexing raises IndexError; in disk mode the load of the absent
artifact for index N raises the missing-file error instead of an
out-of-bounds error. -/
theorem c7_out_of_range (env : Env) (m : Manifest) (args : InitArgs)
    (ds : DatasetState) (r : Option (Nat × Nat))
    (h : (initDataset env m args).result = .ok ds) :
    (ds.do_cache = true →
      getitem ds m.rows.length r = .error PyErr.indexError) ∧
    (ds.do_cache = false →
      getitem ds m.rows.length r
        = .error (.fileNotFound (latentFileName ds.data_dir m.rows.length))) := by
  obtain ⟨pairs, heg, hdd, hdc, hvl, hms, hdl, hdm⟩ := initDataset_ok_fields env m args ds h
  have hplen : pairs.length = m.rows.length := eagerPass_ok_length _ _ _ _ _ _ _ heg
  constructor
  · intro hdct
    have hlt : m.rows.length < 500 := by
      rw [hdc] at hdct
      simpa using hdct
    have hnone : ds.vae_latents.get? m.rows.length = none := by
      apply List.get?_eq_none.mpr
      rw [hvl, if_pos hlt]
      simp [hplen]
    unfold getitem
    rw [if_pos hdct, hnone]
  · intro hdcf
    have hge : ¬ m.rows.length < 500 := by
      rw [hdc] at hdcf
      simpa using hdcf
    have hnone : ds.diskLatents.get? m.rows.length = none := by
      apply List.get?_eq_none.mpr
      rw [hdl, if_neg hge]
      simp [hplen]
    unfold getitem
    rw [if_neg (by simp [hdcf] : ¬ ds.do_cache = true), hnone]

/-- Claim C7, witness: on the one-row in-memory dataset a read at
index 1 raises IndexError. -/
theorem c7_witness : getitem ds1 1 none = Except.error PyErr.indexError :=
  (c7_out_of_range env1 m1 args1 ds1 none rfl).1 rfl

set_option maxRecDepth 100000 in
/-- Claim C7, counterexample: on the 500-row on-disk dataset the read
at index 500 fails with the missing-artifact file error, not with an
out-of-bounds error, refuting the claim that both modes report an
out-of-bounds failure. -/
theorem c7_counterexample :
    (initDataset env1 m500 args1).result = Except.ok ds500 ∧
    ds500.do_cache = false ∧
    getitem ds500 500 none
      = Except.error (PyErr.fileNotFound (latentFileName (args1.data_dir) 500)) ∧
    getitem ds500 500 none ≠ Except.error PyErr.indexError := by
  have h3 : getitem ds500 500 none
      = Except.error (PyErr.fileNotFound (latentFileName (args1.data_dir) 500)) := rfl
  refine ⟨rfl, rfl, h3, ?_⟩
  rw [h3]
  simp

/-- Claim C8, amended: with the second tokenizer absent the batch call
returns no batch at all, so no output with an omitted slot exists: if
the `tokenizer_2` attribute was never assigned the call dies reading
it, and even with the attribute assigned `None` the call dies in the
loop calling `.unsqueeze(0)` on the raw caption string. (The return
statement the source would execute for `tokenizer_2 = None`, line 134,
includes the second slot as `None` rather than omitting it.) -/
theorem c8_no_batch_when_tok2_absent (ds : DatasetState) (bm : BucketManager)
    (i : Nat) (rest : List Nat)
    (hbm : ds.bucket_manager = some bm) (hbatch : bm.nextBatch.1 = i :: rest) :
    (ds.tokenizer_2 = none →
      get_aspect_ratio_bucketed_batch ds = .error (.attributeError tok2AttrName)) ∧
    (ds.tokenizer_2 = some none →
      ∀ g, getitem ds i (some bm.nextBatch.2) = .ok g →
        get_aspect_ratio_bucketed_batch ds = .error (.attributeError unsqueezeName)) := by
  constructor
  · intro htok
    simp only [get_aspect_ratio_bucketed_batch, hbm, hbatch, htok]
  · intro htok g hg
    simp only [get_aspect_ratio_bucketed_batch, hbm, hbatch, htok, hg]

/-- Claim C8, witness: with `tokenizer_2` assigned `None` on the
bucketing-enabled dataset, the call raises the AttributeError from
`.unsqueeze(0)` on the caption string. -/
theorem c8_witness :
    get_aspect_ratio_bucketed_batch ds8b
      = Except.error (PyErr.attributeError unsqueezeName) :=
  (c8_no_batch_when_tok2_absent ds8b bm3 0 [] rfl rfl).2 rfl read8 rfl

/-- Claim C8, counterexample: on the constructed bucketing-enabled
dataset the second tokenizer is absent and the batch call returns no
batch at all — it raises the `tokenizer_2` AttributeError — refuting
the claim that it returns a batch with the second-tokenizer slot
omitted. -/
theorem c8_counterexample :
    (initDataset env1 m1 args3).result = Except.ok ds3 ∧
    ds3.tokenizer_2 = none ∧
    get_aspect_ratio_bucketed_batch ds3
      = Except.error (PyErr.attributeError tok2AttrName) ∧
    exceptOk (get_aspect_ratio_bucketed_batch ds3) = false :=
  ⟨rfl, rfl, rfl, rfl⟩

/-- Claim C9: calling the bucketed-batch method on any dataset
constructed with bucketing disabled fails immediately with the
precondition assertion on the missing bucket manager, before any index
is read and without returning a batch. -/
theorem c9_precondition_violation (env : Env) (m : Manifest) (args : InitArgs)
    (ds : DatasetState) (hb : args.aspect_ratio_bucketing = false)
    (h : (initDataset env m args).result = .ok ds) :
    get_aspect_ratio_bucketed_batch ds = .error PyErr.assertionError := by
  obtain ⟨pairs, _, hcase⟩ := initDataset_ok_struct env m args ds h
  rcases hcase with ⟨_, rfl⟩ | ⟨hbt, _, _⟩
  · rfl
  · rw [hb] at hbt
    simp at hbt

/-- Claim C9, witness: the bucketing-disabled one-row dataset raises
the assertion. -/
theorem c9_witness :
    get_aspect_ratio_bucketed_batch ds1 = Except.error PyErr.assertionError :=
  c9_precondition_violation env1 m1 args1 ds1 rfl rfl

/-- Claim C10, amended: the encoder release step (`del` plus cache
flush) runs exactly when the eager encoding pass completes normally; a
row failing partway through the pass propagates its exception before
the release step, so the encoder is then not released. -/
theorem c10_release_iff_pass_ok (env : Env) (m : Manifest) (args : InitArgs) :
    (initDataset env m args).encoderReleased
      = exceptOk (eagerPass env args.data_dir args.size (maskColOf m)
          (m.rows.map ManifestRow.image_path) m.rows.length) := by
  unfold initDataset
  cases heg : eagerPass env args.data_dir args.size (maskColOf m)
      (m.rows.map ManifestRow.image_path) m.rows.length with
  | error e => rfl
  | ok pairs =>
    dsimp only
    split
    · split
      · rfl
      · split
        · rfl
        · rfl
    · rfl

/-- Claim C10, counterexample: with the second of two images
unreadable, construction aborts partway through the eager pass with
the file error and the encoder release step never runs, refuting the
guaranteed-release-on-failure claim. -/
theorem c10_counterexample :
    initDataset env10 m10 args1
      = InitResult.mk (Except.error (PyErr.fileNotFound (joinPath ("d") ("b.png")))) false := rfl
